import Mathlib

/-!
Verification of the Language Learning Bot (src/Script.py) against its
natural-language specification.

The development shallowly embeds the session-state mutating operations of the
`LanguageLearningBot` class: the in-memory mistakes list and the `mistakes`
database table become explicit list-valued fields of a `BotState` record, the
external language model becomes an oracle parameter at the call boundary, and
the JSON payload returned by the model becomes an explicit `JValue` tree
(`Option JValue` at the parse boundary: `none` models a body on which
`json.loads` raises).  Python integers are unbounded, so importances are `Int`.
-/

namespace LangBot

/-- One entry of the in-memory `self.mistakes` list: the dict appended by
`record_mistake` with keys mistake_text, correction, mistake_type, importance. -/
structure MistakeRow where
  mistake_text : String
  correction : String
  mistake_type : String
  importance : Int
deriving Repr, DecidableEq

/-- One row of the `mistakes` database table as inserted by `record_mistake`:
the same fields plus the session id (`self.session_id`, which is `None` until
`start_session` has run, hence `Option Int`). -/
structure DbMistakeRow where
  session_id : Option Int
  mistake_text : String
  correction : String
  mistake_type : String
  importance : Int
deriving Repr, DecidableEq

/-- The mutable session state of the `LanguageLearningBot` object that the
embedded operations read or write: the configuration fields, `self.session_id`,
the in-memory `self.mistakes` list, and the rows of the `mistakes` table. -/
structure BotState where
  target_language : String
  native_language : String
  proficiency_level : String
  selected_scene : String
  session_id : Option Int
  mistakes : List MistakeRow
  db_mistakes : List DbMistakeRow
deriving Repr, DecidableEq

/-- Embedding of `record_mistake` (src/Script.py lines 142-158): appends the
dict to `self.mistakes` and inserts the corresponding row, keyed by the current
session id, into the `mistakes` table.  The `importance` parameter is passed
explicitly here; the source signature gives it the default value 1, modelled by
`default_importance` and `record_mistake_default` below. -/
def record_mistake (s : BotState) (mistake_text correction mistake_type : String)
    (importance : Int) : BotState :=
  { s with
    mistakes := s.mistakes ++ [⟨mistake_text, correction, mistake_type, importance⟩],
    db_mistakes := s.db_mistakes ++
      [⟨s.session_id, mistake_text, correction, mistake_type, importance⟩] }

/-- Default value of the `importance` parameter in the source signature
`def record_mistake(self, mistake_text, correction, mistake_type, importance: int = 1)`. -/
def default_importance : Int := 1

/-- A call of `record_mistake` that omits the `importance` argument: Python
fills in the declared default. -/
def record_mistake_default (s : BotState) (mistake_text correction mistake_type : String) :
    BotState :=
  record_mistake s mistake_text correction mistake_type default_importance

/-- One mistake entry of a parsed analysis payload, with the five keys the
analysis prompt requests and `prepare_chat_response` reads:
incorrect, correction, explanation, type, importance. -/
structure AnalysisMistake where
  incorrect : String
  correction : String
  explanation : String
  type : String
  importance : Int
deriving Repr, DecidableEq

/-- A shape-correct analysis payload (the spec calls it an Analysis Result):
the four top-level keys of the JSON object the analysis prompt requests. -/
structure Analysis where
  mistakes : List AnalysisMistake
  overall_quality : Int
  strengths : List String
  improvement_areas : List String
deriving Repr, DecidableEq

/-- The bracketed inline-correction annotation appended to `correction_text`
for one surfaced mistake (src/Script.py line 308). -/
def correctionLine (m : AnalysisMistake) : String :=
  "[Correction: " ++ m.incorrect ++ " → " ++ m.correction ++ "]\n"

/-- Embedding of the loop in `prepare_chat_response` (src/Script.py lines
305-315): walk the analysis mistakes in order; for each one with importance at
least 2, append its bracketed annotation and call `record_mistake` with that
mistake's fields; mistakes below the threshold are skipped entirely.  Returns
the updated state and the list of surfaced mistakes in order; the
`correction_text` string of the source is the concatenation of the annotations
of exactly these surfaced mistakes (`correction_text_of` below). -/
def composeCorrections (s : BotState) : List AnalysisMistake → BotState × List AnalysisMistake
  | [] => (s, [])
  | m :: rest =>
    if 2 ≤ m.importance then
      let s1 := record_mistake s m.incorrect m.correction m.type m.importance
      let out := composeCorrections s1 rest
      (out.1, m :: out.2)
    else
      composeCorrections s rest

/-- The `correction_text` accumulator value: concatenation, in order, of the
bracketed annotations of the surfaced mistakes. -/
def correction_text_of (surfaced : List AnalysisMistake) : String :=
  String.join (surfaced.map correctionLine)

/-- Embedding of `prepare_chat_response` (src/Script.py lines 302-341) up to
the external-model call: processes the analysis mistakes as in the source loop
and returns the updated state, the surfaced mistakes, and the `correction_text`
embedded into the reply prompt.  The reply itself is produced by the external
model from a prompt containing `correction_text` verbatim and is outside the
embedding boundary. -/
def prepare_chat_response (s : BotState) (user_input : String) (analysis : Analysis) :
    BotState × List AnalysisMistake × String :=
  let out := composeCorrections s analysis.mistakes
  (out.1, out.2, correction_text_of out.2)

/-- A JSON value as produced by `json.loads`: the payload shape is not
constrained by parsing, so the analyzer can receive any of these. (JSON
numbers are modelled as integers; no claim depends on fractional values.) -/
inductive JValue where
  | jnull : JValue
  | jbool : Bool → JValue
  | jnum : Int → JValue
  | jstr : String → JValue
  | jarr : List JValue → JValue
  | jobj : List (String × JValue) → JValue
deriving Repr

/-- The fallback analysis dict built in the `except` branch of
`analyze_user_response` (src/Script.py line 300). -/
def default_analysis : JValue :=
  JValue.jobj [("mistakes", JValue.jarr []),
               ("overall_quality", JValue.jnum 3),
               ("strengths", JValue.jarr []),
               ("improvement_areas", JValue.jarr [])]

/-- Embedding of `analyze_user_response` (src/Script.py lines 255-300) at the
parse boundary.  The argument `body` abstracts the external-model response
content: `some v` when `json.loads` succeeds and yields `v` (any JSON value,
of the expected shape or not), `none` when `json.loads` raises.  Returns the
(unchanged) state, the analysis value the function returns, and whether the
parse-failure message was printed. -/
def analyze_user_response (s : BotState) (body : Option JValue) :
    BotState × JValue × Bool :=
  match body with
  | some v => (s, v, false)
  | none => (s, default_analysis, true)

/-- First-match lookup of a key in a JSON object field list. -/
def jlookup (k : String) : List (String × JValue) → Option JValue
  | [] => none
  | kv :: rest => if kv.1 = k then some kv.2 else jlookup k rest

/-- Whether a JSON value is an array of strings. -/
def isStrArr : JValue → Bool
  | JValue.jarr xs => xs.all fun v => match v with
      | JValue.jstr _ => true
      | _ => false
  | _ => false

/-- Whether a JSON value is a shape-correct mistake entry: an object whose
incorrect, correction, explanation and type keys hold strings and whose
importance key holds a number, as the analysis prompt requests. -/
def isMistakeObj : JValue → Bool
  | JValue.jobj fields =>
      (match jlookup "incorrect" fields with | some (JValue.jstr _) => true | _ => false) &&
      (match jlookup "correction" fields with | some (JValue.jstr _) => true | _ => false) &&
      (match jlookup "explanation" fields with | some (JValue.jstr _) => true | _ => false) &&
      (match jlookup "type" fields with | some (JValue.jstr _) => true | _ => false) &&
      (match jlookup "importance" fields with | some (JValue.jnum _) => true | _ => false)
  | _ => false

/-- Whether a JSON value has the structured shape the analysis prompt requests
(src/Script.py lines 270-284): an object with a mistakes array of mistake
entries, a numeric overall_quality, and string arrays strengths and
improvement_areas. -/
def expectedShape : JValue → Bool
  | JValue.jobj fields =>
      (match jlookup "mistakes" fields with
        | some (JValue.jarr ms) => ms.all isMistakeObj
        | _ => false) &&
      (match jlookup "overall_quality" fields with | some (JValue.jnum _) => true | _ => false) &&
      (match jlookup "strengths" fields with | some v => isStrArr v | _ => false) &&
      (match jlookup "improvement_areas" fields with | some v => isStrArr v | _ => false)
  | _ => false

/-- Occurrence count of one category among the recorded mistakes: the count
the `value_counts()` mapping in `generate_session_feedback` (src/Script.py
line 352) assigns to that category. -/
def count_by_category (rows : List MistakeRow) (cat : String) : Nat :=
  (rows.filter fun r => r.mistake_type == cat).length

/-- The distinct categories present among the recorded mistakes, in order of
first appearance: the index set of the `value_counts()` mapping. -/
def categories (rows : List MistakeRow) : List String :=
  (rows.map fun r => r.mistake_type).dedup

/-- The `mistake_types` mapping of `generate_session_feedback`: each distinct
category paired with its occurrence count. -/
def value_counts (rows : List MistakeRow) : List (String × Nat) :=
  (categories rows).map fun c => (c, count_by_category rows c)

/-- The `important_mistakes` selection of `generate_session_feedback`
(src/Script.py line 353): the rows with importance at least 2, in arrival
order (`df[df["importance"] >= 2]` preserves row order). -/
def important_mistakes (rows : List MistakeRow) : List MistakeRow :=
  rows.filter fun r => decide (2 ≤ r.importance)

/-- The fixed congratulatory message returned when no mistakes were recorded
(src/Script.py line 346). -/
def congratsMessage : String :=
  "Great job! You didn\x27t make any significant mistakes in this conversation."

/-- Embedding of `generate_session_feedback` (src/Script.py lines 343-381).
If `self.mistakes` is empty the fixed message is returned and the external
model is not called; otherwise the feedback prompt is built from the
`mistake_types` counts and the `important_mistakes` records and one external
call is made.  The oracle parameter abstracts the external model; the second
component counts the external-model calls performed. -/
def generate_session_feedback (s : BotState)
    (oracle : List (String × Nat) → List MistakeRow → String) : String × Nat :=
  if s.mistakes.isEmpty then
    (congratsMessage, 0)
  else
    (oracle (value_counts s.mistakes) (important_mistakes s.mistakes), 1)

/-- Validity test of one menu input attempt against a catalog of size `n`:
`none` models a non-numeric entry (the `int()` call raises `ValueError`),
`some c` a numeric entry `c`, accepted when `1 <= c <= n`. -/
def menu_valid (n : Nat) : Option Int → Bool
  | none => false
  | some c => decide (1 ≤ c ∧ c ≤ (n : Int))

/-- Embedding of the re-prompt loops of `get_language_preference`,
`get_proficiency_level` and `select_scene` (src/Script.py lines 179-188,
201-209, 217-226): consume input attempts in order; a non-numeric or
out-of-range attempt only prints a message and re-prompts; the first valid
choice is returned.  `none` means the supplied attempts were exhausted with
the loop still prompting. -/
def menu_select (n : Nat) : List (Option Int) → Option Int
  | [] => none
  | none :: rest => menu_select n rest
  | some c :: rest =>
      if 1 ≤ c ∧ c ≤ (n : Int) then some c else menu_select n rest

/-- Menu selection against a catalog: a valid choice `c` indexes entry
`c - 1` of the catalog list, as in `available_languages[choice - 1]`,
`self.LEVELS[choice - 1]` and `list(self.SCENES.keys())[choice - 1]`. -/
def select_from (catalog : List String) (inputs : List (Option Int)) : Option String :=
  match menu_select catalog.length inputs with
  | some c => catalog.get? (c - 1).toNat
  | none => none

/-- The fixed language catalog of `get_available_languages`
(src/Script.py lines 160-167). -/
def available_languages : List String :=
  ["Spanish", "French", "German", "Italian", "Portuguese",
   "Russian", "Japanese", "Chinese", "Korean", "Arabic",
   "Hindi", "Dutch", "Swedish", "Turkish", "Polish"]

/-- The fixed proficiency-level catalog `LEVELS` (src/Script.py line 34). -/
def LEVELS : List String := ["beginner", "intermediate", "advanced"]

/-- The keys of the fixed scene catalog `SCENES` (src/Script.py lines 22-31),
in insertion order, as enumerated by `list(self.SCENES.keys())`. -/
def scene_keys : List String :=
  ["restaurant", "hotel", "shopping", "airport", "doctor",
   "job_interview", "making_friends", "public_transport"]

/-- A concrete configured session state with an open session and empty
mistake store, used to instantiate theorems. -/
def s0 : BotState :=
  { target_language := "Spanish",
    native_language := "English",
    proficiency_level := "beginner",
    selected_scene := "restaurant",
    session_id := some 1,
    mistakes := [],
    db_mistakes := [] }

/-- The in-memory row built from an analysis mistake by the `record_mistake`
call inside `prepare_chat_response`. -/
def toRow (m : AnalysisMistake) : MistakeRow :=
  ⟨m.incorrect, m.correction, m.type, m.importance⟩

/-- The database row built from an analysis mistake by the `record_mistake`
call inside `prepare_chat_response`, under session id `sid`. -/
def toDbRow (sid : Option Int) (m : AnalysisMistake) : DbMistakeRow :=
  ⟨sid, m.incorrect, m.correction, m.type, m.importance⟩

/-- The analysis mistakes that pass the importance gate of the composer loop. -/
def promoted (ms : List AnalysisMistake) : List AnalysisMistake :=
  ms.filter fun m => decide (2 ≤ m.importance)

/-- Characterization of the composer loop: it surfaces exactly the mistakes
with importance at least 2 and extends the two stores by exactly the rows of
those same mistakes, in arrival order, leaving every other state field
unchanged. -/
theorem composeCorrections_eq (ms : List AnalysisMistake) (s : BotState) :
    composeCorrections s ms =
      ({ s with
          mistakes := s.mistakes ++ (promoted ms).map toRow,
          db_mistakes := s.db_mistakes ++ (promoted ms).map (toDbRow s.session_id) },
       promoted ms) := by
  induction ms generalizing s with
  | nil => simp [composeCorrections, promoted]
  | cons m rest ih =>
    by_cases h : 2 ≤ m.importance
    · simp [composeCorrections, h, ih, promoted, record_mistake, List.filter_cons,
        toRow, toDbRow]
    · simp [composeCorrections, h, ih, promoted, List.filter_cons]

/-- The state after `prepare_chat_response`, in closed form. -/
theorem prepare_state_eq (s : BotState) (u : String) (a : Analysis) :
    (prepare_chat_response s u a).1 =
      { s with
        mistakes := s.mistakes ++ (promoted a.mistakes).map toRow,
        db_mistakes := s.db_mistakes ++ (promoted a.mistakes).map (toDbRow s.session_id) } := by
  simp [prepare_chat_response, composeCorrections_eq]

/-- The surfaced-mistake list of `prepare_chat_response`, in closed form. -/
theorem prepare_surfaced_eq (s : BotState) (u : String) (a : Analysis) :
    (prepare_chat_response s u a).2.1 = promoted a.mistakes := by
  simp [prepare_chat_response, composeCorrections_eq]

/-- Claim C1: for every analysis result, `prepare_chat_response` surfaces an
inline bracketed correction for a mistake if and only if that mistake's
importance is at least 2; in particular never for importance 1 and always for
importance 3.  The reply prompt's `correction_text` is the concatenation of
the bracketed annotations of exactly the surfaced mistakes. -/
theorem inline_correction_iff_importance_ge_two
    (s : BotState) (u : String) (a : Analysis) (m : AnalysisMistake)
    (hm : m ∈ a.mistakes) :
    m ∈ (prepare_chat_response s u a).2.1 ↔ 2 ≤ m.importance := by
  rw [prepare_surfaced_eq]
  constructor
  · intro hmem
    have := List.of_mem_filter hmem
    simpa using this
  · intro himp
    exact List.mem_filter.mpr ⟨hm, by simpa using himp⟩

/-- Witness for C1: in a concrete analysis holding one importance-3 mistake,
that mistake is surfaced. -/
theorem inline_correction_iff_importance_ge_two_witness :
    (⟨"yo es", "yo soy", "wrong copula", "grammar", 3⟩ : AnalysisMistake) ∈
      (prepare_chat_response s0 "yo es estudiante"
        ⟨[⟨"yo es", "yo soy", "wrong copula", "grammar", 3⟩], 2, [], []⟩).2.1 :=
  (inline_correction_iff_importance_ge_two s0 "yo es estudiante"
    ⟨[⟨"yo es", "yo soy", "wrong copula", "grammar", 3⟩], 2, [], []⟩
    ⟨"yo es", "yo soy", "wrong copula", "grammar", 3⟩ (by decide)).mpr (by decide)

/-- A concrete analysis result holding a single mistake of importance 1. -/
def analysis_low : Analysis :=
  ⟨[⟨"la problema", "el problema", "gender agreement", "grammar", 1⟩], 4, [], []⟩

/-- Counterexample to claim C2 as stated: after the composer processes an
analysis whose only mistake has importance 1, neither the in-memory mistakes
list nor the persisted table contains that mistake — the `record_mistake` call
sits inside the importance gate, so low-importance mistakes are not stored. -/
theorem low_importance_mistake_not_recorded :
    (prepare_chat_response s0 "es la problema" analysis_low).1.mistakes = [] ∧
    (prepare_chat_response s0 "es la problema" analysis_low).1.db_mistakes = [] := by
  constructor <;> rfl

/-- Claim C2 (amended): storage is gated identically to surfacing —
`prepare_chat_response` records to the in-memory list and to durable storage
exactly the mistakes with importance at least 2, and mistakes of importance 1
are neither surfaced nor stored. -/
theorem recorded_iff_surfaced (s : BotState) (u : String) (a : Analysis) :
    (prepare_chat_response s u a).1.mistakes = s.mistakes ++ (promoted a.mistakes).map toRow ∧
    (prepare_chat_response s u a).1.db_mistakes =
      s.db_mistakes ++ (promoted a.mistakes).map (toDbRow s.session_id) ∧
    (prepare_chat_response s u a).2.1 = promoted a.mistakes := by
  refine ⟨?_, ?_, prepare_surfaced_eq s u a⟩ <;> rw [prepare_state_eq]

/-- Claim C9: a `record_mistake` call that omits the importance argument
records importance 1, both in the in-memory list and in the persisted row. -/
theorem record_mistake_default_importance_one
    (s : BotState) (t c ty : String) :
    (record_mistake_default s t c ty).mistakes = s.mistakes ++ [⟨t, c, ty, 1⟩] ∧
    (record_mistake_default s t c ty).db_mistakes =
      s.db_mistakes ++ [⟨s.session_id, t, c, ty, 1⟩] := by
  constructor <;> rfl

/-- Claim C10: the analyzer is effect-free on the session state — in
particular it never touches the mistakes list — and the only state change of a
turn happens in `prepare_chat_response`, which updates exactly the two mistake
stores with the promoted records. -/
theorem analyzer_frame_composer_updates :
    (∀ (s : BotState) (body : Option JValue), (analyze_user_response s body).1 = s) ∧
    (∀ (s : BotState) (u : String) (a : Analysis),
      (prepare_chat_response s u a).1 =
        { s with
          mistakes := s.mistakes ++ (promoted a.mistakes).map toRow,
          db_mistakes := s.db_mistakes ++ (promoted a.mistakes).map (toDbRow s.session_id) }) := by
  refine ⟨fun s body => ?_, prepare_state_eq⟩
  cases body <;> rfl

/-- Boolean range test for the importance of an in-memory mistake row. -/
def rowImportanceInRange (r : MistakeRow) : Bool :=
  decide (1 ≤ r.importance ∧ r.importance ≤ 3)

/-- Boolean range test for the importance of a persisted mistake row. -/
def dbRowImportanceInRange (r : DbMistakeRow) : Bool :=
  decide (1 ≤ r.importance ∧ r.importance ≤ 3)

/-- Boolean range test for the importance of an analysis mistake. -/
def analysisImportanceInRange (m : AnalysisMistake) : Bool :=
  decide (1 ≤ m.importance ∧ m.importance ≤ 3)

/-- A concrete analysis result holding a single mistake of importance 4,
outside the 1-3 scale the prompt requests. -/
def analysis_high : Analysis :=
  ⟨[⟨"muy malo", "muy mal", "adjective versus adverb", "grammar", 4⟩], 1, [], []⟩

/-- Counterexample to claim C7 as stated: `record_mistake` performs no
validation, so an analysis claiming importance 4 puts a row of importance 4 —
outside the range 1 to 3 — into both stores. -/
theorem out_of_range_importance_persisted :
    (prepare_chat_response s0 "es muy malo" analysis_high).1.mistakes =
      [⟨"muy malo", "muy mal", "grammar", 4⟩] ∧
    rowImportanceInRange ⟨"muy malo", "muy mal", "grammar", 4⟩ = false := by
  constructor <;> rfl

/-- Claim C7 (amended): the stores never invent out-of-range importances on
their own — provided every importance in the incoming analysis lies in the
range 1 to 3 and every row already stored does, every row stored after
`prepare_chat_response` still lies in the range 1 to 3 (the newly added ones
in fact have importance at least 2). -/
theorem importance_invariant_conditional
    (s : BotState) (u : String) (a : Analysis)
    (hs : s.mistakes.all rowImportanceInRange = true)
    (hdb : s.db_mistakes.all dbRowImportanceInRange = true)
    (ha : a.mistakes.all analysisImportanceInRange = true) :
    (prepare_chat_response s u a).1.mistakes.all rowImportanceInRange = true ∧
    (prepare_chat_response s u a).1.db_mistakes.all dbRowImportanceInRange = true := by
  rw [prepare_state_eq]
  constructor
  · rw [List.all_append, Bool.and_eq_true]
    refine ⟨hs, ?_⟩
    rw [List.all_eq_true]
    intro r hr
    rcases List.mem_map.mp hr with ⟨m, hm, rfl⟩
    have hin : m ∈ a.mistakes := by
      have h2 := hm
      simp only [promoted, List.mem_filter, decide_eq_true_eq] at h2
      exact h2.1
    have hrange := (List.all_eq_true.mp ha) m hin
    simp only [analysisImportanceInRange, decide_eq_true_eq] at hrange
    simpa only [rowImportanceInRange, toRow, decide_eq_true_eq] using hrange
  · rw [List.all_append, Bool.and_eq_true]
    refine ⟨hdb, ?_⟩
    rw [List.all_eq_true]
    intro r hr
    rcases List.mem_map.mp hr with ⟨m, hm, rfl⟩
    have hin : m ∈ a.mistakes := by
      have h2 := hm
      simp only [promoted, List.mem_filter, decide_eq_true_eq] at h2
      exact h2.1
    have hrange := (List.all_eq_true.mp ha) m hin
    simp only [analysisImportanceInRange, decide_eq_true_eq] at hrange
    simpa only [dbRowImportanceInRange, toDbRow, decide_eq_true_eq] using hrange

/-- Witness for C7 (amended): concrete in-range analysis keeps both stores in
range. -/
theorem importance_invariant_conditional_witness :
    (prepare_chat_response s0 "hola"
      ⟨[⟨"tu", "usted", "register", "vocabulary", 3⟩], 3, [], []⟩).1.mistakes.all
        rowImportanceInRange = true ∧
    (prepare_chat_response s0 "hola"
      ⟨[⟨"tu", "usted", "register", "vocabulary", 3⟩], 3, [], []⟩).1.db_mistakes.all
        dbRowImportanceInRange = true :=
  importance_invariant_conditional s0 "hola"
    ⟨[⟨"tu", "usted", "register", "vocabulary", 3⟩], 3, [], []⟩
    (by decide) (by decide) (by decide)

/-- Counterexample to claim C3 as stated: a body that is valid JSON but not of
the expected structured shape — here the JSON object with no keys — is
returned verbatim by the analyzer, not replaced by the empty analysis result,
and no parse failure is reported; only a body on which `json.loads` raises is
replaced by the default. -/
theorem wrong_shape_json_returned_verbatim :
    expectedShape (JValue.jobj []) = false ∧
    analyze_user_response s0 (some (JValue.jobj [])) = (s0, JValue.jobj [], false) ∧
    JValue.jobj [] ≠ default_analysis := by
  refine ⟨rfl, rfl, ?_⟩
  intro h
  simp [default_analysis] at h

/-- Claim C3 (amended): when the external-model response body fails to parse
as JSON — `json.loads` raises — the analyzer does not raise: it returns the
default analysis object with an empty mistakes array, overall quality 3 and
empty strengths and improvement areas, leaves the session state unchanged,
and reports the parse failure. -/
theorem parse_failure_returns_default_analysis (s : BotState) :
    analyze_user_response s none = (s, default_analysis, true) := rfl

/-- A stub external-model oracle used to instantiate feedback theorems. -/
def oracle0 : List (String × Nat) → List MistakeRow → String :=
  fun _ _ => "session feedback"

/-- A state whose session recorded exactly one mistake. -/
def one_mistake_state : BotState :=
  { s0 with mistakes := [⟨"la problema", "el problema", "grammar", 2⟩] }

/-- Claim C4: with an empty mistake store `generate_session_feedback` returns
the fixed congratulatory message and performs no external-model call; the
external model is consulted (exactly once) only when at least one mistake was
recorded. -/
theorem empty_store_short_circuits
    (oracle : List (String × Nat) → List MistakeRow → String) (s : BotState) :
    (s.mistakes = [] → generate_session_feedback s oracle = (congratsMessage, 0)) ∧
    (s.mistakes ≠ [] → (generate_session_feedback s oracle).2 = 1) := by
  constructor
  · intro h
    simp [generate_session_feedback, h]
  · intro h
    simp [generate_session_feedback, h]

/-- Witness for C4: the initial empty-store state short-circuits, and a
one-mistake state makes exactly one external call. -/
theorem empty_store_short_circuits_witness :
    generate_session_feedback s0 oracle0 = (congratsMessage, 0) ∧
    (generate_session_feedback one_mistake_state oracle0).2 = 1 :=
  ⟨(empty_store_short_circuits oracle0 s0).1 rfl,
   (empty_store_short_circuits oracle0 one_mistake_state).2 (by decide)⟩

/-- The category count agrees with the occurrence count in the projected
category list. -/
theorem count_by_category_eq_count (rows : List MistakeRow) (c : String) :
    count_by_category rows c = (rows.map fun r => r.mistake_type).count c := by
  induction rows with
  | nil => rfl
  | cons r rest ih =>
    by_cases h : r.mistake_type = c
    · simp [count_by_category, List.filter_cons, List.count_cons, h] at ih ⊢
      omega
    · simp [count_by_category, List.filter_cons, List.count_cons, h] at ih ⊢
      exact ih

/-- Pointwise version of `count_by_category_eq_count`. -/
theorem count_by_category_funext (rows : List MistakeRow) :
    count_by_category rows = fun c => (rows.map fun r => r.mistake_type).count c :=
  funext (count_by_category_eq_count rows)

/-- Summing the occurrence counts of the distinct elements of a list recovers
its length. -/
theorem sum_dedup_count {α : Type} [DecidableEq α] (l : List α) :
    (l.dedup.map fun a => l.count a).sum = l.length := by
  have h := Multiset.toFinset_sum_count_eq (l : Multiset α)
  simpa [Finset.sum, Multiset.toFinset] using h

/-- Claim C6: `count_by_category` partitions the store exactly — the
per-category counts over the distinct categories sum to the total number of
recorded rows, and appending one row increments exactly its own category count
by one (so repeated identical records are counted separately, with no record
double-counted or dropped). -/
theorem count_by_category_partitions :
    (∀ rows : List MistakeRow,
      ((categories rows).map (count_by_category rows)).sum = rows.length) ∧
    (∀ (rows : List MistakeRow) (r : MistakeRow) (c : String),
      count_by_category (rows ++ [r]) c =
        count_by_category rows c + (if r.mistake_type = c then 1 else 0)) := by
  constructor
  · intro rows
    rw [count_by_category_funext, categories]
    have h := sum_dedup_count (rows.map fun r => r.mistake_type)
    simpa using h
  · intro rows r c
    by_cases h : r.mistake_type = c <;>
      simp [count_by_category, List.filter_append, h]

/-- Skipping behavior of the menu loop: a block of invalid attempts — each
non-numeric or out of range — is consumed by re-prompts without any effect on
the final selection. -/
theorem menu_select_skips (n : Nat) (bad rest : List (Option Int))
    (hbad : bad.all (fun i => !(menu_valid n i)) = true) :
    menu_select n (bad ++ rest) = menu_select n rest := by
  induction bad with
  | nil => rfl
  | cons i bad ih =>
    rw [List.all_cons, Bool.and_eq_true] at hbad
    obtain ⟨hi, hb⟩ := hbad
    cases i with
    | none => simpa [menu_select] using ih hb
    | some k =>
      have hk0 : menu_valid n (some k) = false := by simpa using hi
      have hk : ¬(1 ≤ k ∧ k ≤ (n : Int)) := by
        simp only [menu_valid, decide_eq_false_iff_not] at hk0
        exact hk0
      simpa [menu_select, hk] using ih hb

/-- A valid numeric attempt at the head of the input stream is selected
immediately. -/
theorem menu_select_valid_head (n : Nat) (c : Int) (rest : List (Option Int))
    (h1 : 1 ≤ c) (h2 : c ≤ (n : Int)) :
    menu_select n (some c :: rest) = some c := by
  simp [menu_select, h1, h2]

/-- Claim C8: for every menu prompt over a fixed catalog, any block of invalid
attempts (non-numeric, or numeric outside 1 to catalog size) is recovered by
re-prompting and never propagates as an error, and the first valid choice `c`
selects exactly the `c`-th catalog entry, at index `c - 1`, which exists. -/
theorem menu_select_recovers_and_indexes
    (catalog : List String) (bad rest : List (Option Int)) (c : Int)
    (hbad : bad.all (fun i => !(menu_valid catalog.length i)) = true)
    (h1 : 1 ≤ c) (h2 : c ≤ (catalog.length : Int)) :
    select_from catalog (bad ++ some c :: rest) = catalog.get? (c - 1).toNat ∧
    (c - 1).toNat < catalog.length := by
  refine ⟨?_, by omega⟩
  rw [select_from, menu_select_skips catalog.length bad (some c :: rest) hbad,
    menu_select_valid_head catalog.length c rest h1 h2]

/-- Witness for C8: on the language menu, a non-numeric attempt and the
out-of-range attempts 99 and 0 are all re-prompted, and the valid choice 2
then selects the second catalog entry. -/
theorem menu_select_recovers_and_indexes_witness :
    select_from available_languages [none, some 99, some 0, some 2] = some "French" :=
  (menu_select_recovers_and_indexes available_languages [none, some 99, some 0] [] 2
    (by decide) (by decide) (by decide)).1.trans (by decide)

end LangBot
